import Mathlib

/-!
Verification of the AirSense air-quality classification engine
(`clasificarCalidadAire` in `src/backend/basedatos.js`).

The function is a pure decision-table evaluator: given a pollutant symbol,
a measured concentration and an exposure window (hours), it returns a
quality level (`nivel`), a display color, a description, and — on the
classified paths — an echo of the WHO 2021 reference thresholds used
(`limites_oms`).

Shallow embedding choices:
* JavaScript numbers are modelled by `JSValue`: `null`, `undefined` and
  `nan` cover the inputs rejected by the guard
  `valor === null || valor === undefined || isNaN(valor)`; the remaining
  numerics are `negInf`, `posInf` and finite rationals `num q`.
  The threshold comparisons `valor <= limite` are exact on these values
  (all table limits are integers), so rationals model them faithfully.
* The nested JavaScript object literal `limites` becomes an association
  list of association lists with the same keys, in source order; object
  indexing becomes `List.find?` on the key. JavaScript bracket access also
  reaches members inherited from `Object.prototype` (`"constructor"`,
  `"toString"`, …): those are truthy, so they pass the pollutant guard and
  fail only at the window lookup; `lookupLimites` models them as an empty
  ranges list, which is observationally exact because such members carry
  no numeric-string keys a numeric `tiempoHoras` could hit.
* The returned object becomes the structure `Clasificacion`; the
  `limites_oms` property, attached only on classified results, becomes an
  `Option` field, `none` on the three "Sin datos" paths.
* The `console.log` tracing in the source is I/O with no effect on the
  returned value and is not modelled.
-/

/-- A JavaScript value arriving in the `valor` argument. -/
inductive JSValue where
  | null
  | undefined
  | nan
  | negInf
  | posInf
  | num (q : ℚ)
deriving DecidableEq, Repr

/-- The guard `valor === null || valor === undefined || isNaN(valor)`. -/
def JSValue.esInvalido : JSValue → Bool
  | .null => true
  | .undefined => true
  | .nan => true
  | _ => false

/-- The JavaScript comparison `valor <= limite` for a numeric `valor`
(the guard has already excluded `null`, `undefined` and `NaN`). -/
def JSValue.jsLe : JSValue → ℚ → Bool
  | .negInf, _ => true
  | .posInf, _ => false
  | .num q, l => q ≤ l
  | _, _ => false

/-- The `limites_oms` echo attached to classified results. -/
structure LimitesOMS where
  buena : ℚ
  regular : ℚ
  tiempo_horas : ℚ
  fuente : String
deriving DecidableEq, Repr

/-- The object returned by `clasificarCalidadAire`. -/
structure Clasificacion where
  nivel : String
  color : String
  descripcion : String
  limites_oms : Option LimitesOMS
deriving DecidableEq, Repr

/-- The WHO 2021 threshold table (`const limites` in the source):
pollutant → exposure hours → (goodLimit, moderateLimit), in source order. -/
def limites : List (String × List (ℚ × ℚ × ℚ)) :=
  [("O3", [(1, 100, 160), (8, 60, 100)]),
   ("PM10", [(1, 50, 100), (24, 45, 75)]),
   ("PM2.5", [(1, 15, 25), (24, 15, 25)]),
   ("SO2", [(1, 100, 196), (3, 100, 250), (24, 40, 125)]),
   ("NO2", [(1, 200, 360), (24, 25, 50)]),
   ("CO", [(1, 4000, 10000), (8, 7000, 10000)]),
   ("NO", [(1, 100, 200)])]

/-- Property names every plain object literal inherits from
`Object.prototype`, all bound to truthy function/object values. -/
def protoObjeto : List String :=
  ["constructor", "hasOwnProperty", "isPrototypeOf", "propertyIsEnumerable",
   "toLocaleString", "toString", "valueOf",
   "__defineGetter__", "__defineSetter__", "__lookupGetter__",
   "__lookupSetter__", "__proto__"]

/-- The object access `limites[contaminante]`. An own key yields its ranges.
A property name inherited from `Object.prototype` yields a truthy non-table
value, so the `!rangosContaminante` guard does not fire; that value has
no numeric-string keys, so the subsequent `rangosContaminante[tiempoHoras]`
access always misses — modelled as an empty ranges list. Any other
string yields `undefined`. -/
def lookupLimites (contaminante : String) : Option (List (ℚ × ℚ × ℚ)) :=
  match limites.find? (fun e => e.1 == contaminante) with
  | some e => some e.2
  | none => if protoObjeto.contains contaminante then some [] else none

/-- The object access `rangosContaminante[tiempoHoras]`. -/
def lookupRangos (rangos : List (ℚ × ℚ × ℚ)) (tiempoHoras : ℚ) : Option (ℚ × ℚ) :=
  (rangos.find? (fun e => e.1 == tiempoHoras)).map (fun e => (e.2.1, e.2.2))

/-- Description of the missing-value result. -/
def descSinDatosValor : String := "No hay información disponible para esta medición"

/-- Description of the unknown-pollutant result. -/
def descSinContaminante (contaminante : String) : String :=
  "No hay parámetros de referencia para " ++ contaminante

/-- Description of the unsupported-window result. -/
def descSinTiempo (contaminante : String) (tiempoHoras : ℚ) : String :=
  "No hay parámetros para " ++ contaminante ++ " con " ++ toString tiempoHoras ++
    "h de exposición"

/-- Description of the "Buena" level. -/
def descBuena : String :=
  "La calidad del aire cumple con los estándares de la OMS y no representa riesgo para la salud"

/-- Description of the "Regular" level. -/
def descRegular : String :=
  "La calidad del aire supera las recomendaciones de la OMS. Puede afectar a personas sensibles (niños, ancianos, personas con enfermedades respiratorias)"

/-- Description of the "Mala" level. -/
def descMala : String :=
  "La calidad del aire supera significativamente los límites seguros de la OMS y puede afectar la salud de toda la población"

/-- The function `clasificarCalidadAire(contaminante, valor, tiempoHoras)`
from `src/backend/basedatos.js`, lines 321–437. -/
def clasificarCalidadAire (contaminante : String) (valor : JSValue)
    (tiempoHoras : ℚ) : Clasificacion :=
  if valor.esInvalido then
    ⟨"Sin datos", "#9E9E9E", descSinDatosValor, none⟩
  else
    match lookupLimites contaminante with
    | none => ⟨"Sin datos", "#9E9E9E", descSinContaminante contaminante, none⟩
    | some rangosContaminante =>
      match lookupRangos rangosContaminante tiempoHoras with
      | none => ⟨"Sin datos", "#9E9E9E", descSinTiempo contaminante tiempoHoras, none⟩
      | some (limiteBuena, limiteRegular) =>
        let echo : Option LimitesOMS :=
          some ⟨limiteBuena, limiteRegular, tiempoHoras, "OMS 2021"⟩
        if valor.jsLe limiteBuena then
          ⟨"Buena", "#00E400", descBuena, echo⟩
        else if valor.jsLe limiteRegular then
          ⟨"Regular", "#FFFF00", descRegular, echo⟩
        else
          ⟨"Mala", "#FF0000", descMala, echo⟩

/-- The threshold table flattened to (pollutant, hours, goodLimit, moderateLimit)
rows, in source order. -/
def tablaPlana : List (String × ℚ × ℚ × ℚ) :=
  limites.flatMap (fun e => e.2.map (fun r => (e.1, r)))

example : clasificarCalidadAire "PM2.5" (.num 12) 24 =
    ⟨"Buena", "#00E400", descBuena, some ⟨15, 25, 24, "OMS 2021"⟩⟩ := by decide
example : clasificarCalidadAire "PM2.5" (.num 20) 24 =
    ⟨"Regular", "#FFFF00", descRegular, some ⟨15, 25, 24, "OMS 2021"⟩⟩ := by decide
example : clasificarCalidadAire "PM2.5" (.num 30) 24 =
    ⟨"Mala", "#FF0000", descMala, some ⟨15, 25, 24, "OMS 2021"⟩⟩ := by decide
example : clasificarCalidadAire "CO" (.num 10000) 8 =
    ⟨"Regular", "#FFFF00", descRegular, some ⟨7000, 10000, 8, "OMS 2021"⟩⟩ := by decide
example : (clasificarCalidadAire "NO2" (.num 400) 1).nivel = "Mala" := by decide
example : (clasificarCalidadAire "SO2" .null 24).nivel = "Sin datos" := by decide
example : (clasificarCalidadAire "O3" (.num 50) 5).nivel = "Sin datos" := by decide
example : (clasificarCalidadAire "Xx-unknown" (.num 10) 24).descripcion =
    "No hay parámetros de referencia para Xx-unknown" := by decide
example : clasificarCalidadAire "constructor" (.num 10) 24 =
    ⟨"Sin datos", "#9E9E9E", descSinTiempo "constructor" 24, none⟩ := by decide
example : clasificarCalidadAire "toString" (.num 10) 24 =
    ⟨"Sin datos", "#9E9E9E", descSinTiempo "toString" 24, none⟩ := by decide

/-! ## Helper lemmas -/

/-- A successful pollutant lookup hit either an own key of the table or an
`Object.prototype` member, the latter carrying an empty ranges list. -/
theorem lookupLimites_mem {c : String} {rs : List (ℚ × ℚ × ℚ)}
    (h : lookupLimites c = some rs) : (c, rs) ∈ limites ∨ rs = [] := by
  unfold lookupLimites at h
  rcases hf : limites.find? (fun e => e.1 == c) with _ | e
  · rw [hf] at h
    by_cases hp : protoObjeto.contains c = true
    · right
      simp only [hp, if_true, Option.some.injEq] at h
      exact h.symm
    · simp only [hp, if_false] at h
      cases h
  · rw [hf] at h
    left
    have hmem := List.mem_of_find?_eq_some hf
    have hfst : e.1 = c := by
      have := List.find?_some hf
      simpa using this
    have hrs : e.2 = rs := by
      simp only [Option.some.injEq] at h
      exact h
    have : e = (c, rs) := by
      cases e
      simp_all
    rwa [this] at hmem

/-- A successful window lookup means the row is in the pollutant's list. -/
theorem lookupRangos_mem {rs : List (ℚ × ℚ × ℚ)} {h g m : ℚ}
    (hr : lookupRangos rs h = some (g, m)) : (h, g, m) ∈ rs := by
  obtain ⟨e, he, hsnd⟩ := Option.map_eq_some'.mp hr
  have hmem := List.mem_of_find?_eq_some he
  have hfst : e.1 = h := by
    have := List.find?_some he
    simpa using this
  have : e = (h, g, m) := by
    obtain ⟨e1, e2, e3⟩ := e
    simp_all
  rwa [this] at hmem

/-- Every threshold pair reachable by the double lookup satisfies
goodLimit < moderateLimit (a window lookup cannot succeed on the empty
ranges list of a prototype hit). -/
theorem table_lt {c : String} {rs : List (ℚ × ℚ × ℚ)} {h g m : ℚ}
    (h1 : lookupLimites c = some rs) (h2 : lookupRangos rs h = some (g, m)) :
    g < m := by
  rcases lookupLimites_mem h1 with hmem | rfl
  · have hall : ∀ e ∈ limites, ∀ r ∈ e.2, r.2.1 < r.2.2 := by decide
    exact hall (c, rs) hmem (h, g, m) (lookupRangos_mem h2)
  · simp [lookupRangos] at h2

/-- On a successful double lookup with a numeric value, the function reduces
to the three-way comparison against the two limits. -/
theorem clasificar_eq (p : String) (hq g m : ℚ) (rs : List (ℚ × ℚ × ℚ))
    (h1 : lookupLimites p = some rs) (h2 : lookupRangos rs hq = some (g, m))
    (v : JSValue) (hv : v.esInvalido = false) :
    clasificarCalidadAire p v hq =
      if v.jsLe g then
        ⟨"Buena", "#00E400", descBuena, some ⟨g, m, hq, "OMS 2021"⟩⟩
      else if v.jsLe m then
        ⟨"Regular", "#FFFF00", descRegular, some ⟨g, m, hq, "OMS 2021"⟩⟩
      else
        ⟨"Mala", "#FF0000", descMala, some ⟨g, m, hq, "OMS 2021"⟩⟩ := by
  simp only [clasificarCalidadAire, hv, Bool.false_eq_true, if_false, h1, h2]

/-- The unknown-pollutant description never coincides with the
missing-value description, whatever the pollutant string. -/
theorem descSinContaminante_ne (c : String) :
    descSinContaminante c ≠ descSinDatosValor := by
  intro heq
  have h1 := congrArg (fun s => s.data[7]?) heq
  simp only [descSinContaminante, descSinDatosValor, String.data_append,
    List.append_assoc] at h1
  rw [List.getElem?_append_left (by decide)] at h1
  exact absurd h1 (by decide)

/-- The unsupported-window description never coincides with the
missing-value description, whatever the pollutant and window. -/
theorem descSinTiempo_ne (c : String) (h : ℚ) :
    descSinTiempo c h ≠ descSinDatosValor := by
  intro heq
  have h1 := congrArg (fun s => s.data[7]?) heq
  simp only [descSinTiempo, descSinDatosValor, String.data_append,
    List.append_assoc] at h1
  rw [List.getElem?_append_left (by decide)] at h1
  exact absurd h1 (by decide)

/-! ## Claims -/

/-- C3: for every pollutant and every exposure window, a `null`, `undefined`
or `NaN` value yields the "Sin datos" level with the missing-value
description ("No hay información disponible para esta medición") and no
`limites_oms` echo. -/
theorem c3_valor_invalido (c : String) (h : ℚ) (v : JSValue)
    (hv : v = JSValue.null ∨ v = JSValue.undefined ∨ v = JSValue.nan) :
    clasificarCalidadAire c v h =
      ⟨"Sin datos", "#9E9E9E", "No hay información disponible para esta medición",
        none⟩ := by
  rcases hv with rfl | rfl | rfl <;> rfl

theorem c3_valor_invalido_witness :
    clasificarCalidadAire "SO2" JSValue.null 24 =
      ⟨"Sin datos", "#9E9E9E", "No hay información disponible para esta medición",
        none⟩ :=
  c3_valor_invalido "SO2" 24 JSValue.null (Or.inl rfl)

/-- C4: for every numeric, non-NaN value, a pollutant with no entry in the
threshold table yields "Sin datos" with no echo and a description that
names the pollutant and is distinct from the missing-value description.
For a pollutant that is not a property name inherited from
`Object.prototype` that description is the unknown-pollutant message; for
the twelve inherited names the bracket access returns a truthy non-table
member, the unknown-pollutant guard does not fire, and the source falls
through to the unsupported-window message instead — which still names the
pollutant and still differs from the missing-value text. -/
theorem c4_contaminante_desconocido (c : String) (h v : ℚ)
    (hc : limites.find? (fun e => e.1 == c) = none) :
    (clasificarCalidadAire c (JSValue.num v) h).nivel = "Sin datos" ∧
    (clasificarCalidadAire c (JSValue.num v) h).limites_oms = none ∧
    c.data <:+: (clasificarCalidadAire c (JSValue.num v) h).descripcion.data ∧
    (clasificarCalidadAire c (JSValue.num v) h).descripcion ≠
      descSinDatosValor ∧
    (protoObjeto.contains c = false →
      (clasificarCalidadAire c (JSValue.num v) h).descripcion =
        descSinContaminante c) ∧
    (protoObjeto.contains c = true →
      (clasificarCalidadAire c (JSValue.num v) h).descripcion =
        descSinTiempo c h) := by
  by_cases hp : protoObjeto.contains c = true
  · have hpm : c ∈ protoObjeto := by simpa using hp
    have hL : lookupLimites c = some [] := by
      simp [lookupLimites, hc, hpm]
    have hres : clasificarCalidadAire c (JSValue.num v) h =
        ⟨"Sin datos", "#9E9E9E", descSinTiempo c h, none⟩ := by
      simp [clasificarCalidadAire, JSValue.esInvalido, hL, lookupRangos]
    rw [hres]
    refine ⟨rfl, rfl, ?_, descSinTiempo_ne c h,
      fun hf => Bool.noConfusion (hp.symm.trans hf), fun _ => rfl⟩
    refine ⟨("No hay parámetros para ").data,
      (" con " ++ toString h ++ "h de exposición").data, ?_⟩
    simp [descSinTiempo, String.data_append, List.append_assoc]
  · have hp' : protoObjeto.contains c = false := by simpa using hp
    have hpm : c ∉ protoObjeto := by simpa using hp
    have hL : lookupLimites c = none := by
      simp [lookupLimites, hc, hpm]
    have hres : clasificarCalidadAire c (JSValue.num v) h =
        ⟨"Sin datos", "#9E9E9E", descSinContaminante c, none⟩ := by
      simp [clasificarCalidadAire, JSValue.esInvalido, hL]
    rw [hres]
    refine ⟨rfl, rfl, ?_, descSinContaminante_ne c,
      fun _ => rfl, fun ht => Bool.noConfusion (hp'.symm.trans ht)⟩
    exact ⟨("No hay parámetros de referencia para ").data, [],
      by simp [descSinContaminante, String.data_append]⟩

theorem c4_contaminante_desconocido_witness :
    (clasificarCalidadAire "Xx-unknown" (JSValue.num 10) 24).nivel =
      "Sin datos" ∧
    (clasificarCalidadAire "Xx-unknown" (JSValue.num 10) 24).limites_oms =
      none ∧
    ("Xx-unknown").data <:+:
      (clasificarCalidadAire "Xx-unknown" (JSValue.num 10) 24).descripcion.data ∧
    (clasificarCalidadAire "Xx-unknown" (JSValue.num 10) 24).descripcion ≠
      descSinDatosValor ∧
    (protoObjeto.contains "Xx-unknown" = false →
      (clasificarCalidadAire "Xx-unknown" (JSValue.num 10) 24).descripcion =
        descSinContaminante "Xx-unknown") ∧
    (protoObjeto.contains "Xx-unknown" = true →
      (clasificarCalidadAire "Xx-unknown" (JSValue.num 10) 24).descripcion =
        descSinTiempo "Xx-unknown" 24) :=
  c4_contaminante_desconocido "Xx-unknown" 24 10 (by decide)

/-- C5: for every numeric, non-NaN value, a known pollutant with an
unconfigured exposure window (exact-match lookup only) yields "Sin datos"
with a description naming both the pollutant and the window; in
particular `clasificarCalidadAire "O3" 50 5` is "Sin datos". -/
theorem c5_tiempo_desconocido (c : String) (h v : ℚ) (rs : List (ℚ × ℚ × ℚ))
    (h1 : lookupLimites c = some rs) (h2 : lookupRangos rs h = none) :
    clasificarCalidadAire c (JSValue.num v) h =
      ⟨"Sin datos", "#9E9E9E",
        "No hay parámetros para " ++ c ++ " con " ++ toString h ++
          "h de exposición", none⟩ ∧
    (clasificarCalidadAire "O3" (JSValue.num 50) 5).nivel = "Sin datos" := by
  constructor
  · simp only [clasificarCalidadAire, JSValue.esInvalido, Bool.false_eq_true,
      if_false, h1, h2]
    rfl
  · rfl

theorem c5_tiempo_desconocido_witness :
    clasificarCalidadAire "O3" (JSValue.num 50) 5 =
      ⟨"Sin datos", "#9E9E9E",
        "No hay parámetros para " ++ "O3" ++ " con " ++ toString (5 : ℚ) ++
          "h de exposición", none⟩ ∧
    (clasificarCalidadAire "O3" (JSValue.num 50) 5).nivel = "Sin datos" :=
  c5_tiempo_desconocido "O3" 5 50 [(1, 100, 160), (8, 60, 100)] (by decide)
    (by decide)

/-- C6: the threshold table holds exactly the fourteen
(pollutant, hours, goodLimit, moderateLimit) rows of the spec's section 6
table, with distinct (pollutant, hours) keys and goodLimit ≤ moderateLimit
in every row. -/
theorem c6_tabla_limites :
    tablaPlana =
      [("O3", 1, 100, 160), ("O3", 8, 60, 100),
       ("PM10", 1, 50, 100), ("PM10", 24, 45, 75),
       ("PM2.5", 1, 15, 25), ("PM2.5", 24, 15, 25),
       ("SO2", 1, 100, 196), ("SO2", 3, 100, 250), ("SO2", 24, 40, 125),
       ("NO2", 1, 200, 360), ("NO2", 24, 25, 50),
       ("CO", 1, 4000, 10000), ("CO", 8, 7000, 10000),
       ("NO", 1, 100, 200)] ∧
    (tablaPlana.map (fun e => (e.1, e.2.1))).Nodup ∧
    (∀ e ∈ tablaPlana, e.2.2.1 ≤ e.2.2.2) := by decide

/-- C9: the missing-value guard runs before either lookup: for every
pollutant (known or not) and every window (supported or not), an invalid
value produces the missing-value description, never the unknown-pollutant
or unsupported-window description. -/
theorem c9_precedencia_sin_datos (c : String) (h : ℚ) (v : JSValue)
    (hv : v.esInvalido = true) :
    (clasificarCalidadAire c v h).descripcion = descSinDatosValor ∧
    (clasificarCalidadAire c v h).descripcion ≠ descSinContaminante c ∧
    (clasificarCalidadAire c v h).descripcion ≠ descSinTiempo c h := by
  have hres : clasificarCalidadAire c v h =
      ⟨"Sin datos", "#9E9E9E", descSinDatosValor, none⟩ := by
    cases v <;> simp_all [clasificarCalidadAire, JSValue.esInvalido]
  rw [hres]
  exact ⟨rfl, fun he => descSinContaminante_ne c he.symm,
    fun he => descSinTiempo_ne c h he.symm⟩

theorem c9_precedencia_sin_datos_witness :
    (clasificarCalidadAire "Desconocido" JSValue.nan 99).descripcion =
      descSinDatosValor ∧
    (clasificarCalidadAire "Desconocido" JSValue.nan 99).descripcion ≠
      descSinContaminante "Desconocido" ∧
    (clasificarCalidadAire "Desconocido" JSValue.nan 99).descripcion ≠
      descSinTiempo "Desconocido" 99 :=
  c9_precedencia_sin_datos "Desconocido" 99 JSValue.nan (by decide)

/-- C10: no lower-range validation: for every known pollutant/window pair,
any numeric value at most the goodLimit — zero, negative, or negative
infinity — classifies as "Buena" rather than being rejected. -/
theorem c10_sin_validacion_inferior (c : String) (h g m : ℚ)
    (rs : List (ℚ × ℚ × ℚ)) (h1 : lookupLimites c = some rs)
    (h2 : lookupRangos rs h = some (g, m)) (v : JSValue)
    (hv : v = JSValue.negInf ∨ ∃ q, v = JSValue.num q ∧ q ≤ g) :
    (clasificarCalidadAire c v h).nivel = "Buena" := by
  have hinv : v.esInvalido = false := by
    rcases hv with rfl | ⟨q, rfl, hq⟩ <;> rfl
  rw [clasificar_eq c h g m rs h1 h2 v hinv]
  have hle : v.jsLe g = true := by
    rcases hv with rfl | ⟨q, rfl, hq⟩
    · rfl
    · simpa [JSValue.jsLe] using hq
  rw [hle]
  rfl

theorem c10_sin_validacion_inferior_witness :
    (clasificarCalidadAire "PM2.5" JSValue.negInf 24).nivel = "Buena" :=
  c10_sin_validacion_inferior "PM2.5" 24 15 25 [(1, 15, 25), (24, 15, 25)]
    (by decide) (by decide) JSValue.negInf (Or.inl rfl)

/-- C1: on every (pollutant, window) pair present in the table and every
finite numeric value, the level is "Buena" iff value ≤ goodLimit,
"Regular" iff goodLimit < value ≤ moderateLimit, "Mala" iff
value > moderateLimit; both boundaries are inclusive: the goodLimit
classifies as "Buena" and the moderateLimit as "Regular", not "Mala". -/
theorem c1_intervalos_inclusivos (p : String) (h g m : ℚ)
    (rs : List (ℚ × ℚ × ℚ)) (h1 : lookupLimites p = some rs)
    (h2 : lookupRangos rs h = some (g, m)) (v : ℚ) :
    ((clasificarCalidadAire p (JSValue.num v) h).nivel = "Buena" ↔ v ≤ g) ∧
    ((clasificarCalidadAire p (JSValue.num v) h).nivel = "Regular" ↔
      g < v ∧ v ≤ m) ∧
    ((clasificarCalidadAire p (JSValue.num v) h).nivel = "Mala" ↔ m < v) ∧
    (clasificarCalidadAire p (JSValue.num g) h).nivel = "Buena" ∧
    (clasificarCalidadAire p (JSValue.num m) h).nivel = "Regular" := by
  have hgm := table_lt h1 h2
  have key := fun (w : ℚ) => clasificar_eq p h g m rs h1 h2 (JSValue.num w) rfl
  have hbnd1 : (clasificarCalidadAire p (JSValue.num g) h).nivel = "Buena" := by
    rw [key g]
    simp [JSValue.jsLe]
  have hbnd2 : (clasificarCalidadAire p (JSValue.num m) h).nivel = "Regular" := by
    rw [key m]
    have hng : ¬ m ≤ g := not_le.mpr hgm
    simp [JSValue.jsLe, hng]
  refine ⟨?_, ?_, ?_, hbnd1, hbnd2⟩ <;>
  · rw [key v]
    rcases le_or_lt v g with hvg | hvg
    · have ha : ¬ g < v := not_lt.mpr hvg
      have hb : v ≤ m := hvg.trans hgm.le
      have hc : ¬ m < v := not_lt.mpr hb
      simp [JSValue.jsLe, hvg, ha, hb, hc]
    · rcases le_or_lt v m with hvm | hvm
      · have ha : ¬ v ≤ g := not_le.mpr hvg
        have hc : ¬ m < v := not_lt.mpr hvm
        simp [JSValue.jsLe, hvg, ha, hvm, hc]
      · have ha : ¬ v ≤ g := not_le.mpr hvg
        have hb : ¬ v ≤ m := not_le.mpr hvm
        simp [JSValue.jsLe, ha, hb, hvg, hvm]

theorem c1_intervalos_inclusivos_witness :
    ((clasificarCalidadAire "PM2.5" (JSValue.num 20) 24).nivel = "Buena" ↔
      (20 : ℚ) ≤ 15) ∧
    ((clasificarCalidadAire "PM2.5" (JSValue.num 20) 24).nivel = "Regular" ↔
      (15 : ℚ) < 20 ∧ (20 : ℚ) ≤ 25) ∧
    ((clasificarCalidadAire "PM2.5" (JSValue.num 20) 24).nivel = "Mala" ↔
      (25 : ℚ) < 20) ∧
    (clasificarCalidadAire "PM2.5" (JSValue.num 15) 24).nivel = "Buena" ∧
    (clasificarCalidadAire "PM2.5" (JSValue.num 25) 24).nivel = "Regular" :=
  c1_intervalos_inclusivos "PM2.5" 24 15 25 [(1, 15, 25), (24, 15, 25)]
    (by decide) (by decide) 20

/-- C2: the function is total and structurally sound — for every pollutant
string, every value (null, undefined, NaN, ±∞ or finite) and every window,
the result's level is one of the four tiers, its color one of the four
fixed colors, and its description one of the six fixed texts; malformed
inputs degrade to "Sin datos" instead of failing. -/
theorem c2_funcion_total (c : String) (v : JSValue) (h : ℚ) :
    ((clasificarCalidadAire c v h).nivel = "Buena" ∨
     (clasificarCalidadAire c v h).nivel = "Regular" ∨
     (clasificarCalidadAire c v h).nivel = "Mala" ∨
     (clasificarCalidadAire c v h).nivel = "Sin datos") ∧
    ((clasificarCalidadAire c v h).color = "#00E400" ∨
     (clasificarCalidadAire c v h).color = "#FFFF00" ∨
     (clasificarCalidadAire c v h).color = "#FF0000" ∨
     (clasificarCalidadAire c v h).color = "#9E9E9E") ∧
    ((clasificarCalidadAire c v h).descripcion = descBuena ∨
     (clasificarCalidadAire c v h).descripcion = descRegular ∨
     (clasificarCalidadAire c v h).descripcion = descMala ∨
     (clasificarCalidadAire c v h).descripcion = descSinDatosValor ∨
     (clasificarCalidadAire c v h).descripcion = descSinContaminante c ∨
     (clasificarCalidadAire c v h).descripcion = descSinTiempo c h) := by
  by_cases hv : v.esInvalido = true
  · have hres : clasificarCalidadAire c v h =
        ⟨"Sin datos", "#9E9E9E", descSinDatosValor, none⟩ := by
      simp [clasificarCalidadAire, hv]
    rw [hres]
    exact ⟨Or.inr (Or.inr (Or.inr rfl)), Or.inr (Or.inr (Or.inr rfl)),
      Or.inr (Or.inr (Or.inr (Or.inl rfl)))⟩
  · have hv' : v.esInvalido = false := by simpa using hv
    rcases hL : lookupLimites c with _ | rs
    · have hres : clasificarCalidadAire c v h =
          ⟨"Sin datos", "#9E9E9E", descSinContaminante c, none⟩ := by
        simp [clasificarCalidadAire, hv', hL]
      rw [hres]
      exact ⟨Or.inr (Or.inr (Or.inr rfl)), Or.inr (Or.inr (Or.inr rfl)),
        Or.inr (Or.inr (Or.inr (Or.inr (Or.inl rfl))))⟩
    · rcases hR : lookupRangos rs h with _ | gm
      · have hres : clasificarCalidadAire c v h =
            ⟨"Sin datos", "#9E9E9E", descSinTiempo c h, none⟩ := by
          simp [clasificarCalidadAire, hv', hL, hR]
        rw [hres]
        exact ⟨Or.inr (Or.inr (Or.inr rfl)), Or.inr (Or.inr (Or.inr rfl)),
          Or.inr (Or.inr (Or.inr (Or.inr (Or.inr rfl))))⟩
      · obtain ⟨g, m⟩ := gm
        rw [clasificar_eq c h g m rs hL hR v hv']
        split_ifs
        · exact ⟨Or.inl rfl, Or.inl rfl, Or.inl rfl⟩
        · exact ⟨Or.inr (Or.inl rfl), Or.inr (Or.inl rfl), Or.inr (Or.inl rfl)⟩
        · exact ⟨Or.inr (Or.inr (Or.inl rfl)), Or.inr (Or.inr (Or.inl rfl)),
            Or.inr (Or.inr (Or.inl rfl))⟩

/-- C7 counterexample: a Good-tier result has the claimed color, but its
description is the code's fixed Spanish text, not the quoted English
literal "Air quality meets WHO standards and poses no health risk.". -/
theorem c7_descripcion_counterexample :
    (clasificarCalidadAire "PM2.5" (JSValue.num 12) 24).nivel = "Buena" ∧
    (clasificarCalidadAire "PM2.5" (JSValue.num 12) 24).color = "#00E400" ∧
    (clasificarCalidadAire "PM2.5" (JSValue.num 12) 24).descripcion ≠
      "Air quality meets WHO standards and poses no health risk." ∧
    (clasificarCalidadAire "PM2.5" (JSValue.num 12) 24).descripcion =
      "La calidad del aire cumple con los estándares de la OMS y no representa riesgo para la salud" := by
  decide

/-- C7 (amended): color and description are bound one-to-one to the level,
with the colors of the spec's section 6 table; the description texts are
the code's fixed Spanish literals (one per classified level, and one of
the three context messages for "Sin datos"). -/
theorem c7_color_descripcion_por_nivel (c : String) (v : JSValue) (h : ℚ) :
    (((clasificarCalidadAire c v h).nivel, (clasificarCalidadAire c v h).color) ∈
      [("Buena", "#00E400"), ("Regular", "#FFFF00"), ("Mala", "#FF0000"),
       ("Sin datos", "#9E9E9E")]) ∧
    ((clasificarCalidadAire c v h).nivel = "Buena" →
      (clasificarCalidadAire c v h).descripcion = descBuena) ∧
    ((clasificarCalidadAire c v h).nivel = "Regular" →
      (clasificarCalidadAire c v h).descripcion = descRegular) ∧
    ((clasificarCalidadAire c v h).nivel = "Mala" →
      (clasificarCalidadAire c v h).descripcion = descMala) ∧
    ((clasificarCalidadAire c v h).nivel = "Sin datos" →
      (clasificarCalidadAire c v h).descripcion = descSinDatosValor ∨
      (clasificarCalidadAire c v h).descripcion = descSinContaminante c ∨
      (clasificarCalidadAire c v h).descripcion = descSinTiempo c h) := by
  by_cases hv : v.esInvalido = true
  · have hres : clasificarCalidadAire c v h =
        ⟨"Sin datos", "#9E9E9E", descSinDatosValor, none⟩ := by
      simp [clasificarCalidadAire, hv]
    rw [hres]
    exact ⟨by simp, by simp, by simp, by simp, fun _ => Or.inl rfl⟩
  · have hv' : v.esInvalido = false := by simpa using hv
    rcases hL : lookupLimites c with _ | rs
    · have hres : clasificarCalidadAire c v h =
          ⟨"Sin datos", "#9E9E9E", descSinContaminante c, none⟩ := by
        simp [clasificarCalidadAire, hv', hL]
      rw [hres]
      exact ⟨by simp, by simp, by simp, by simp, fun _ => Or.inr (Or.inl rfl)⟩
    · rcases hR : lookupRangos rs h with _ | gm
      · have hres : clasificarCalidadAire c v h =
            ⟨"Sin datos", "#9E9E9E", descSinTiempo c h, none⟩ := by
          simp [clasificarCalidadAire, hv', hL, hR]
        rw [hres]
        exact ⟨by simp, by simp, by simp, by simp, fun _ => Or.inr (Or.inr rfl)⟩
      · obtain ⟨g, m⟩ := gm
        rw [clasificar_eq c h g m rs hL hR v hv']
        split_ifs
        · exact ⟨by simp, fun _ => rfl, by simp, by simp, by simp⟩
        · exact ⟨by simp, by simp, fun _ => rfl, by simp, by simp⟩
        · exact ⟨by simp, by simp, by simp, fun _ => rfl, by simp⟩

/-- C8 counterexample: a classified result's threshold echo carries the
source label "OMS 2021", not the claimed literal "WHO 2021". -/
theorem c8_fuente_counterexample :
    (clasificarCalidadAire "PM2.5" (JSValue.num 12) 24).limites_oms =
      some ⟨15, 25, 24, "OMS 2021"⟩ ∧
    "OMS 2021" ≠ "WHO 2021" := by decide

/-- C8 (amended): every classified result ("Buena"/"Regular"/"Mala")
echoes the threshold pair found by the table lookup, the exposure window
and the fixed source label "OMS 2021"; every "Sin datos" result carries
no echo. -/
theorem c8_eco_limites (c : String) (v : JSValue) (h : ℚ) :
    (((clasificarCalidadAire c v h).nivel = "Buena" ∨
      (clasificarCalidadAire c v h).nivel = "Regular" ∨
      (clasificarCalidadAire c v h).nivel = "Mala") →
      ∃ rs g m, lookupLimites c = some rs ∧ lookupRangos rs h = some (g, m) ∧
        (clasificarCalidadAire c v h).limites_oms =
          some ⟨g, m, h, "OMS 2021"⟩) ∧
    ((clasificarCalidadAire c v h).nivel = "Sin datos" →
      (clasificarCalidadAire c v h).limites_oms = none) := by
  by_cases hv : v.esInvalido = true
  · have hres : clasificarCalidadAire c v h =
        ⟨"Sin datos", "#9E9E9E", descSinDatosValor, none⟩ := by
      simp [clasificarCalidadAire, hv]
    rw [hres]
    exact ⟨by simp, fun _ => rfl⟩
  · have hv' : v.esInvalido = false := by simpa using hv
    rcases hL : lookupLimites c with _ | rs
    · have hres : clasificarCalidadAire c v h =
          ⟨"Sin datos", "#9E9E9E", descSinContaminante c, none⟩ := by
        simp [clasificarCalidadAire, hv', hL]
      rw [hres]
      exact ⟨by simp, fun _ => rfl⟩
    · rcases hR : lookupRangos rs h with _ | gm
      · have hres : clasificarCalidadAire c v h =
            ⟨"Sin datos", "#9E9E9E", descSinTiempo c h, none⟩ := by
          simp [clasificarCalidadAire, hv', hL, hR]
        rw [hres]
        exact ⟨by simp, fun _ => rfl⟩
      · obtain ⟨g, m⟩ := gm
        rw [clasificar_eq c h g m rs hL hR v hv']
        split_ifs
        · exact ⟨fun _ => ⟨rs, g, m, rfl, hR, rfl⟩, by simp⟩
        · exact ⟨fun _ => ⟨rs, g, m, rfl, hR, rfl⟩, by simp⟩
        · exact ⟨fun _ => ⟨rs, g, m, rfl, hR, rfl⟩, by simp⟩
